import Mathlib

/-!
Shallow embedding of the Babylon RCT license server (src/index.js).

The server keeps License documents in MongoDB and exposes four public
endpoints (validate-license, activate-license, record-usage) and admin
endpoints (create-license, deactivate-license).  We embed each request
handler as a pure function from the stored license (the document the
handler's `findOne` would load) and the request fields to the updated
stored license and the JSON result.  Dates are modelled as integers
(epoch milliseconds); `new Date() > license.expiryDate` becomes
`now > expiryDate`.  A `saveOk : Bool` argument models whether the
`await license.save()` / `Model.create` store round-trip succeeds; when
it fails the handler's catch block runs and the stored state is the one
before the save.
-/

namespace BabylonLicense

/-- Opaque JSON-object payloads (device fingerprints, usage metadata) are
modelled as association lists of string key/value pairs. -/
abbrev JsonObj := List (String × String)

/-- One element of a license's `deviceActivations` array
(src/index.js licenseSchema, lines 60-65). -/
structure DeviceActivation where
  deviceId : String
  activationDate : Int
  lastValidation : Int
  deviceInfo : JsonObj
deriving DecidableEq

/-- The nested `metadata` subdocument of a license
(src/index.js licenseSchema, lines 66-70). -/
structure LicenseMetadata where
  planType : String
  version : String
  notes : String
deriving DecidableEq

/-- A License document (src/index.js licenseSchema, lines 51-71). -/
structure License where
  licenseKey : String
  customerEmail : String
  customerName : String
  purchaseDate : Int
  expiryDate : Int
  isActive : Bool
  maxActivations : Int
  currentActivations : Int
  deviceActivations : List DeviceActivation
  metadata : LicenseMetadata
deriving DecidableEq

/-- A Usage document (src/index.js usageSchema, lines 76-82). -/
structure UsageEvent where
  licenseKey : String
  deviceId : String
  action : String
  metadata : JsonObj
  timestamp : Int
deriving DecidableEq

/-- The query `License.findOne({ licenseKey: key, isActive: true })`
restricted to a single stored document: it returns the document exactly
when the key matches and the document is active.  Expiry is not part of
the query; the handlers check it separately. -/
def findActiveByKey (l : License) (key : String) : Option License :=
  if l.licenseKey = key ∧ l.isActive = true then some l else none

/-- The lookup `license.deviceActivations.find(a => a.deviceId === device_id)`. -/
def findDevice (acts : List DeviceActivation) (d : String) : Option DeviceActivation :=
  acts.find? (fun a => a.deviceId = d)

/-- In-place mutation of the found activation record
(`deviceActivation.lastValidation = new Date()`): the first element whose
`deviceId` matches gets its `lastValidation` replaced. -/
def touchFirst : List DeviceActivation → String → Int → List DeviceActivation
  | [], _, _ => []
  | a :: rest, d, now =>
    if a.deviceId = d then { a with lastValidation := now } :: rest
    else a :: touchFirst rest d now

/-- The append performed by the activate handler (src/index.js lines
201-208): push a new `DeviceActivation` with `deviceInfo` defaulting to
`{}` and increment `currentActivations`. -/
def pushActivation (l : License) (d : String) (fp : Option JsonObj) (now : Int) : License :=
  { l with
    deviceActivations := l.deviceActivations ++
      [{ deviceId := d, activationDate := now, lastValidation := now,
         deviceInfo := fp.getD [] }],
    currentActivations := l.currentActivations + 1 }

/-- The JSON results of POST /api/validate-license. -/
inductive ValidateResult where
  | notFoundOrInactive
  | expired
  | deviceNotActivated
  | serverError
  | valid (expiryDate : Int) (customerName planType : String)
deriving DecidableEq

/-- POST /api/validate-license (src/index.js lines 89-145): look the
license up by key among active documents, check expiry, find the
device's activation record, set its `lastValidation` and save, then
answer `valid: true`.  A failed save is caught by the handler's catch
block, which answers a 500 `valid: false` server error. -/
def validate (l : License) (key d : String) (now : Int) (saveOk : Bool) :
    License × ValidateResult :=
  match findActiveByKey l key with
  | none => (l, .notFoundOrInactive)
  | some lic =>
    if now > lic.expiryDate then (l, .expired)
    else
      match findDevice lic.deviceActivations d with
      | none => (l, .deviceNotActivated)
      | some _ =>
        if saveOk then
          ({ lic with deviceActivations := touchFirst lic.deviceActivations d now },
           .valid lic.expiryDate lic.customerName lic.metadata.planType)
        else (l, .serverError)

/-- The JSON results of POST /api/activate-license. -/
inductive ActivateResult where
  | invalidKey
  | expired
  | alreadyActivated (expiryDate : Int) (customerName : String)
  | limitReached (maxActivations : Int)
  | activated (expiryDate : Int) (customerName planType : String) (used total : Int)
  | serverError
deriving DecidableEq

/-- POST /api/activate-license (src/index.js lines 148-227): look up by
key among active documents, check expiry, then (1) if the device already
has an activation record, touch its `lastValidation` and answer success
("already activated"), (2) otherwise if `currentActivations >=
maxActivations` answer the limit-reached failure, (3) otherwise push a
new activation, increment `currentActivations` and save.  A failed save
is caught and answered as a 500 server error with the stored state
unchanged. -/
def activate (l : License) (key d : String) (fp : Option JsonObj)
    (now : Int) (saveOk : Bool) : License × ActivateResult :=
  match findActiveByKey l key with
  | none => (l, .invalidKey)
  | some lic =>
    if now > lic.expiryDate then (l, .expired)
    else
      match findDevice lic.deviceActivations d with
      | some _ =>
        if saveOk then
          ({ lic with deviceActivations := touchFirst lic.deviceActivations d now },
           .alreadyActivated lic.expiryDate lic.customerName)
        else (l, .serverError)
      | none =>
        if lic.currentActivations ≥ lic.maxActivations then
          (l, .limitReached lic.maxActivations)
        else if saveOk then
          let lic' := pushActivation lic d fp now
          (lic', .activated lic.expiryDate lic.customerName lic.metadata.planType
                   lic'.currentActivations lic.maxActivations)
        else (l, .serverError)

/-- The JSON results of POST /api/admin/deactivate-license. -/
inductive DeactivateResult where
  | notFound
  | success
deriving DecidableEq

/-- POST /api/admin/deactivate-license (src/index.js lines 353-371):
`findOneAndUpdate({ licenseKey }, { isActive: false })` restricted to a
single stored document — when the key matches, only `isActive` is
updated. -/
def deactivate (l : License) (key : String) : License × DeactivateResult :=
  if l.licenseKey = key then ({ l with isActive := false }, .success)
  else (l, .notFound)

/-- POST /api/record-usage (src/index.js lines 230-249): `Usage.create`
with the request fields (metadata defaulting to `{}`), answering
`{success: true}`; any failure is caught and answered as a soft
`{success: false}` with the event list unchanged.  The handler never
queries the License collection, so it takes no license argument. -/
def recordUsage (events : List UsageEvent) (key d act : String)
    (md : Option JsonObj) (now : Int) (createOk : Bool) :
    List UsageEvent × Bool :=
  if createOk then
    (events ++ [{ licenseKey := key, deviceId := d, action := act,
                  metadata := md.getD [], timestamp := now }], true)
  else (events, false)

/-- JavaScript `String.prototype.trim` on the ASCII whitespace the
handlers can meet: drop leading and trailing whitespace characters. -/
def isWhitespace (c : Char) : Bool :=
  c = ' ' ∨ c = '\t' ∨ c = '\n' ∨ c = '\r'

/-- Trim both ends of a string (JS `.trim()`). -/
def jsTrim (s : String) : String :=
  ⟨((s.data.dropWhile isWhitespace).reverse.dropWhile isWhitespace).reverse⟩

/-- The JSON results of POST /api/admin/create-license. -/
inductive CreateResult where
  | missingFields
  | storeError
  | created (l : License)
deriving DecidableEq

/-- POST /api/admin/create-license (improved handler, src/index.js lines
573-641).  The handler rejects with a 400 "Customer email and name are
required" exactly when either request field is falsy (the empty string,
for string inputs); otherwise it calls `License.create` with the
trimmed fields.  The mongoose schema marks `customerEmail` and
`customerName` as `required: true` String paths, and mongoose's required
validator rejects the empty string for String paths, so a field that
trims to empty makes `License.create` throw; the catch block answers a
500 `success: false`.  `maxActivations` arrives as
`parseInt(maxActivations) || 1` (none models an absent/unparsable field,
and a parsed 0 falls back to 1); `planType || 'single'` makes the empty
string fall back to `'single'`.  Calendar-month expiry arithmetic
(`setMonth(getMonth() + months)`) is abstracted by passing the computed
`expiryDate`; the generated key is passed in as `key`. -/
def createLicense (customerEmail customerName planType : String)
    (maxActivationsInput : Option Int) (notes : String)
    (now expiryDate : Int) (key : String) : CreateResult :=
  if customerEmail = "" ∨ customerName = "" then .missingFields
  else
    if jsTrim customerEmail = "" ∨ jsTrim customerName = "" then .storeError
    else .created
      { licenseKey := key
        customerEmail := jsTrim customerEmail
        customerName := jsTrim customerName
        purchaseDate := now
        expiryDate := expiryDate
        isActive := true
        maxActivations :=
          match maxActivationsInput with
          | some m => if m = 0 then 1 else m
          | none => 1
        currentActivations := 0
        deviceActivations := []
        metadata :=
          { planType := if planType = "" then "single" else planType
            version := "1.0"
            notes := notes } }

/-- Render one hex digit the way `Buffer.toString('hex').toUpperCase()`
does: `0`-`9` then `A`-`F`. -/
def hexChar (n : Nat) : Char :=
  if n < 10 then Char.ofNat (48 + n) else Char.ofNat (55 + n)

/-- One random byte rendered as two uppercase hex characters
(`Buffer.toString('hex')` always emits two digits per byte). -/
def byteToHexUpper (b : Nat) : List Char :=
  [hexChar (b / 16 % 16), hexChar (b % 16)]

/-- One key segment: `crypto.randomBytes(2).toString('hex').toUpperCase()`,
four hex characters from two random bytes. -/
def segmentChars (b1 b2 : Nat) : List Char :=
  byteToHexUpper b1 ++ byteToHexUpper b2

/-- The key generator of the create-license handler (src/index.js lines
311-315): three two-byte segments joined by dashes after the `BABYLON`
prefix. -/
def generateLicenseKey (b0 b1 b2 b3 b4 b5 : Nat) : String :=
  ⟨"BABYLON".data ++ ['-'] ++ segmentChars b0 b1 ++ ['-'] ++
    segmentChars b2 b3 ++ ['-'] ++ segmentChars b4 b5⟩

/-- A character allowed in a key segment: `[0-9A-F]`. -/
def isUpperHexChar (c : Char) : Bool :=
  ('0' ≤ c ∧ c ≤ '9') ∨ ('A' ≤ c ∧ c ≤ 'F')

/-- The spec's key pattern `PREFIX-[0-9A-F]{4}-[0-9A-F]{4}-[0-9A-F]{4}`:
the string is the prefix followed by three dash-separated groups of four
uppercase hexadecimal characters. -/
def isKeyOfPattern (pre : String) (s : String) : Prop :=
  ∃ g1 g2 g3 : List Char,
    g1.length = 4 ∧ g2.length = 4 ∧ g3.length = 4 ∧
    (∀ c ∈ g1, isUpperHexChar c = true) ∧
    (∀ c ∈ g2, isUpperHexChar c = true) ∧
    (∀ c ∈ g3, isUpperHexChar c = true) ∧
    s.data = pre.data ++ ['-'] ++ g1 ++ ['-'] ++ g2 ++ ['-'] ++ g3

/-- One request against a stored license: the operations of the public
and admin endpoints that read or write License documents.  (record-usage
writes only the Usage collection and never touches a License, so it has
no constructor here.) -/
inductive Op where
  | validateOp (key d : String) (now : Int) (saveOk : Bool)
  | activateOp (key d : String) (fp : Option JsonObj) (now : Int) (saveOk : Bool)
  | deactivateOp (key : String)

/-- The stored license after one request is handled. -/
def runOp (l : License) : Op → License
  | .validateOp k d n s => (validate l k d n s).1
  | .activateOp k d f n s => (activate l k d f n s).1
  | .deactivateOp k => (deactivate l k).1

/-- The stored license after a sequence of requests. -/
def runOps (l : License) (ops : List Op) : License :=
  ops.foldl runOp l

/-- The counter invariant: `currentActivations` equals the length of
`deviceActivations`. -/
def counterInv (l : License) : Prop :=
  l.currentActivations = (l.deviceActivations.length : Int)

/-- The capacity invariant: the activation sequence never holds more
than `maxActivations` records. -/
def capInv (l : License) : Prop :=
  (l.deviceActivations.length : Int) ≤ l.maxActivations

instance (l : License) : Decidable (counterInv l) :=
  inferInstanceAs (Decidable (l.currentActivations = (l.deviceActivations.length : Int)))

instance (l : License) : Decidable (capInv l) :=
  inferInstanceAs (Decidable ((l.deviceActivations.length : Int) ≤ l.maxActivations))

/-- The checks an activate request evaluates on the license document it
loaded, in handler order (src/index.js lines 154-199): key found among
active documents, not expired, no existing activation record for the
device, and `currentActivations < maxActivations`.  When they all pass
the handler proceeds to push a new activation and save. -/
def activatePasses (l : License) (key d : String) (now : Int) : Prop :=
  (findActiveByKey l key).isSome = true ∧ ¬ now > l.expiryDate ∧
  findDevice l.deviceActivations d = none ∧
  ¬ l.currentActivations ≥ l.maxActivations

instance (l : License) (key d : String) (now : Int) :
    Decidable (activatePasses l key d now) :=
  inferInstanceAs (Decidable ((findActiveByKey l key).isSome = true ∧
    ¬ now > l.expiryDate ∧ findDevice l.deviceActivations d = none ∧
    ¬ l.currentActivations ≥ l.maxActivations))

/-- Two concurrent activate requests against the same stored license,
interleaved as the handler's code structure allows: each request first
loads the document and evaluates its checks on that snapshot
(src/index.js lines 154-199), and only then does each append its new
activation to the store (lines 201-209).  Both reads happen before
either write, so each request's capacity check sees the original
document. -/
def racedActivatePair (l : License) (d1 d2 : String)
    (fp1 fp2 : Option JsonObj) (now : Int) : License :=
  let pass1 := activatePasses l l.licenseKey d1 now
  let pass2 := activatePasses l l.licenseKey d2 now
  let s1 := if pass1 then pushActivation l d1 fp1 now else l
  if pass2 then pushActivation s1 d2 fp2 now else s1

/-! Helper lemmas. -/

theorem touchFirst_length (acts : List DeviceActivation) (d : String) (now : Int) :
    (touchFirst acts d now).length = acts.length := by
  induction acts with
  | nil => rfl
  | cons a rest ih =>
    simp only [touchFirst]
    split <;> simp [ih]

theorem findActiveByKey_some {l lic : License} {key : String}
    (h : findActiveByKey l key = some lic) :
    lic = l ∧ l.licenseKey = key ∧ l.isActive = true := by
  unfold findActiveByKey at h
  split at h
  · exact ⟨(Option.some.inj h).symm, by tauto, by tauto⟩
  · cases h

theorem findActiveByKey_of_active {l : License} {key : String}
    (hk : l.licenseKey = key) (ha : l.isActive = true) :
    findActiveByKey l key = some l := by
  unfold findActiveByKey
  exact if_pos ⟨hk, ha⟩

theorem findActiveByKey_inactive {l : License} (key : String)
    (h : l.isActive = false) : findActiveByKey l key = none := by
  unfold findActiveByKey
  rw [if_neg]
  rintro ⟨-, h2⟩
  rw [h] at h2
  cases h2

theorem validate_inactive (l : License) (k d : String) (now : Int) (s : Bool)
    (h : l.isActive = false) : validate l k d now s = (l, .notFoundOrInactive) := by
  unfold validate
  rw [findActiveByKey_inactive k h]

theorem activate_inactive (l : License) (k d : String) (fp : Option JsonObj)
    (now : Int) (s : Bool) (h : l.isActive = false) :
    activate l k d fp now s = (l, .invalidKey) := by
  unfold activate
  rw [findActiveByKey_inactive k h]

theorem validate_state (l : License) (key d : String) (now : Int) (s : Bool) :
    (validate l key d now s).1 = l ∨
    (validate l key d now s).1 =
      { l with deviceActivations := touchFirst l.deviceActivations d now } := by
  unfold validate
  cases hf : findActiveByKey l key with
  | none => exact Or.inl rfl
  | some lic =>
    obtain ⟨rfl, -, -⟩ := findActiveByKey_some hf
    dsimp only
    by_cases he : now > lic.expiryDate
    · rw [if_pos he]; exact Or.inl rfl
    · rw [if_neg he]
      cases hd : findDevice lic.deviceActivations d with
      | none => exact Or.inl rfl
      | some a =>
        cases s with
        | false => exact Or.inl rfl
        | true => exact Or.inr rfl

theorem validate_inv (l : License) (key d : String) (now : Int) (s : Bool) :
    (validate l key d now s).1.deviceActivations.length = l.deviceActivations.length ∧
    (validate l key d now s).1.currentActivations = l.currentActivations ∧
    (validate l key d now s).1.maxActivations = l.maxActivations ∧
    (validate l key d now s).1.isActive = l.isActive := by
  rcases validate_state l key d now s with h | h <;> rw [h]
  · exact ⟨rfl, rfl, rfl, rfl⟩
  · exact ⟨touchFirst_length _ _ _, rfl, rfl, rfl⟩

theorem pushActivation_length (l : License) (d : String) (fp : Option JsonObj) (now : Int) :
    (pushActivation l d fp now).deviceActivations.length =
      l.deviceActivations.length + 1 := by
  simp [pushActivation]

theorem pushActivation_current (l : License) (d : String) (fp : Option JsonObj) (now : Int) :
    (pushActivation l d fp now).currentActivations = l.currentActivations + 1 := rfl

theorem pushActivation_max (l : License) (d : String) (fp : Option JsonObj) (now : Int) :
    (pushActivation l d fp now).maxActivations = l.maxActivations := rfl

theorem activate_inv (l : License) (key d : String) (fp : Option JsonObj)
    (now : Int) (s : Bool) (h : counterInv l) :
    counterInv (activate l key d fp now s).1 ∧
    (capInv l → capInv (activate l key d fp now s).1) ∧
    (activate l key d fp now s).1.maxActivations = l.maxActivations ∧
    (activate l key d fp now s).1.isActive = l.isActive := by
  unfold activate
  cases hf : findActiveByKey l key with
  | none => exact ⟨h, fun hc => hc, rfl, rfl⟩
  | some lic =>
    obtain ⟨rfl, -, -⟩ := findActiveByKey_some hf
    dsimp only
    by_cases he : now > lic.expiryDate
    · rw [if_pos he]; exact ⟨h, fun hc => hc, rfl, rfl⟩
    · rw [if_neg he]
      cases hd : findDevice lic.deviceActivations d with
      | some a =>
        cases s with
        | false => exact ⟨h, fun hc => hc, rfl, rfl⟩
        | true =>
          refine ⟨?_, ?_, rfl, rfl⟩
          · unfold counterInv at h ⊢
            simpa [touchFirst_length] using h
          · intro hc
            unfold capInv at hc ⊢
            simpa [touchFirst_length] using hc
      | none =>
        by_cases hcap : lic.currentActivations ≥ lic.maxActivations
        · rw [if_pos hcap]; exact ⟨h, fun hc => hc, rfl, rfl⟩
        · rw [if_neg hcap]
          cases s with
          | false => exact ⟨h, fun hc => hc, rfl, rfl⟩
          | true =>
            dsimp only
            unfold counterInv at h
            refine ⟨?_, ?_, rfl, rfl⟩
            · show counterInv (pushActivation lic d fp now)
              unfold counterInv
              rw [pushActivation_length, pushActivation_current]
              push_cast
              omega
            · intro hc
              unfold capInv at hc
              show capInv (pushActivation lic d fp now)
              unfold capInv
              rw [pushActivation_length, pushActivation_max]
              push_cast
              omega

theorem deactivate_inv (l : License) (key : String) :
    (deactivate l key).1.deviceActivations = l.deviceActivations ∧
    (deactivate l key).1.currentActivations = l.currentActivations ∧
    (deactivate l key).1.maxActivations = l.maxActivations := by
  unfold deactivate
  split <;> exact ⟨rfl, rfl, rfl⟩

theorem runOp_inv (l : License) (op : Op) (h : counterInv l) :
    counterInv (runOp l op) ∧ (capInv l → capInv (runOp l op)) ∧
    (runOp l op).maxActivations = l.maxActivations := by
  cases op with
  | validateOp k d n s =>
    obtain ⟨h1, h2, h3, -⟩ := validate_inv l k d n s
    unfold counterInv capInv runOp at *
    rw [h1, h2, h3]
    exact ⟨h, fun hc => hc, rfl⟩
  | activateOp k d f n s =>
    obtain ⟨h1, h2, h3, -⟩ := activate_inv l k d f n s h
    exact ⟨h1, h2, h3⟩
  | deactivateOp k =>
    obtain ⟨h1, h2, h3⟩ := deactivate_inv l k
    unfold counterInv capInv runOp at *
    rw [h1, h2, h3]
    exact ⟨h, fun hc => hc, rfl⟩

theorem runOps_inv (l : License) (ops : List Op)
    (h1 : counterInv l) (h2 : capInv l) :
    counterInv (runOps l ops) ∧ capInv (runOps l ops) := by
  induction ops generalizing l with
  | nil => exact ⟨h1, h2⟩
  | cons op rest ih =>
    obtain ⟨g1, g2, -⟩ := runOp_inv l op h1
    exact ih (runOp l op) g1 (g2 h2)

theorem runOp_inactive (l : License) (op : Op) (h : l.isActive = false) :
    (runOp l op).isActive = false := by
  cases op with
  | validateOp k d n s =>
    show (validate l k d n s).1.isActive = false
    rw [validate_inactive l k d n s h]
    exact h
  | activateOp k d f n s =>
    show (activate l k d f n s).1.isActive = false
    rw [activate_inactive l k d f n s h]
    exact h
  | deactivateOp k =>
    show (deactivate l k).1.isActive = false
    unfold deactivate
    split <;> simp [h]

theorem runOps_inactive (l : License) (ops : List Op) (h : l.isActive = false) :
    (runOps l ops).isActive = false := by
  induction ops generalizing l with
  | nil => exact h
  | cons op rest ih => exact ih (runOp l op) (runOp_inactive l op h)

theorem findDevice_isSome {acts : List DeviceActivation} {d : String}
    (h : ∃ a ∈ acts, a.deviceId = d) : (findDevice acts d).isSome = true := by
  induction acts with
  | nil => simp at h
  | cons a rest ih =>
    by_cases hda : a.deviceId = d
    · simp [findDevice, List.find?, hda]
    · have hrest : ∃ b ∈ rest, b.deviceId = d := by
        rcases h with ⟨b, hb, hbd⟩
        rcases List.mem_cons.mp hb with rfl | hb'
        · exact absurd hbd hda
        · exact ⟨b, hb', hbd⟩
      simpa [findDevice, List.find?, hda] using ih hrest

theorem activate_found (l : License) {key : String} (d : String) (fp : Option JsonObj)
    (now : Int) (hk : l.licenseKey = key) (ha : l.isActive = true)
    (he : now ≤ l.expiryDate) (hd : (findDevice l.deviceActivations d).isSome = true) :
    activate l key d fp now true =
      ({ l with deviceActivations := touchFirst l.deviceActivations d now },
       .alreadyActivated l.expiryDate l.customerName) := by
  unfold activate
  rw [findActiveByKey_of_active hk ha]
  dsimp only
  rw [if_neg (not_lt.mpr he)]
  obtain ⟨a, ha'⟩ := Option.isSome_iff_exists.mp hd
  rw [ha']
  rfl

theorem validate_found (l : License) {key : String} (d : String) (now : Int)
    (hk : l.licenseKey = key) (ha : l.isActive = true)
    (he : now ≤ l.expiryDate) (hd : (findDevice l.deviceActivations d).isSome = true) :
    validate l key d now true =
      ({ l with deviceActivations := touchFirst l.deviceActivations d now },
       .valid l.expiryDate l.customerName l.metadata.planType) := by
  unfold validate
  rw [findActiveByKey_of_active hk ha]
  dsimp only
  rw [if_neg (not_lt.mpr he)]
  obtain ⟨a, ha'⟩ := Option.isSome_iff_exists.mp hd
  rw [ha']
  rfl

theorem validate_found_savefail (l : License) {key : String} (d : String) (now : Int)
    (hk : l.licenseKey = key) (ha : l.isActive = true)
    (he : now ≤ l.expiryDate) (hd : (findDevice l.deviceActivations d).isSome = true) :
    validate l key d now false = (l, .serverError) := by
  unfold validate
  rw [findActiveByKey_of_active hk ha]
  dsimp only
  rw [if_neg (not_lt.mpr he)]
  obtain ⟨a, ha'⟩ := Option.isSome_iff_exists.mp hd
  rw [ha']
  rfl

/-- Recognizer for the limit-reached result of activate. -/
def isLimitReached : ActivateResult → Bool
  | .limitReached _ => true
  | _ => false

theorem activate_limit_only_if_absent (l : License) (key d : String)
    (fp : Option JsonObj) (now : Int) (s : Bool)
    (hd : (findDevice l.deviceActivations d).isSome = true) :
    isLimitReached (activate l key d fp now s).2 = false := by
  unfold activate
  cases hf : findActiveByKey l key with
  | none => rfl
  | some lic =>
    obtain ⟨rfl, -, -⟩ := findActiveByKey_some hf
    dsimp only
    by_cases he : now > lic.expiryDate
    · rw [if_pos he]; rfl
    · rw [if_neg he]
      obtain ⟨a, ha'⟩ := Option.isSome_iff_exists.mp hd
      rw [ha']
      cases s <;> rfl

/-- A freshly created license used as a concrete input. -/
def lNew : License :=
  { licenseKey := "BABYLON-0A1B-2C3D-4E5F"
    customerEmail := "a@b.com"
    customerName := "A"
    purchaseDate := 0
    expiryDate := 100
    isActive := true
    maxActivations := 2
    currentActivations := 0
    deviceActivations := []
    metadata := { planType := "single", version := "1.0", notes := "" } }

theorem activate_state (l : License) (key d : String) (fp : Option JsonObj)
    (now : Int) (s : Bool) :
    (activate l key d fp now s).1 = l ∨
    (activate l key d fp now s).1 =
      { l with deviceActivations := touchFirst l.deviceActivations d now } ∨
    (activate l key d fp now s).1 = pushActivation l d fp now := by
  unfold activate
  cases hf : findActiveByKey l key with
  | none => exact Or.inl rfl
  | some lic =>
    obtain ⟨rfl, -, -⟩ := findActiveByKey_some hf
    dsimp only
    by_cases he : now > lic.expiryDate
    · rw [if_pos he]; exact Or.inl rfl
    · rw [if_neg he]
      cases hd : findDevice lic.deviceActivations d with
      | some a =>
        cases s with
        | false => exact Or.inl rfl
        | true => exact Or.inr (Or.inl rfl)
      | none =>
        by_cases hcap : lic.currentActivations ≥ lic.maxActivations
        · rw [if_pos hcap]; exact Or.inl rfl
        · rw [if_neg hcap]
          cases s with
          | false => exact Or.inl rfl
          | true => exact Or.inr (Or.inr rfl)

theorem isUpperHexChar_hexChar (n : Nat) (h : n < 16) :
    isUpperHexChar (hexChar n) = true := by
  interval_cases n <;> decide

theorem segmentChars_upperHex (b1 b2 : Nat) :
    ∀ c ∈ segmentChars b1 b2, isUpperHexChar c = true := by
  intro c hc
  simp only [segmentChars, byteToHexUpper, List.mem_append, List.mem_cons,
    List.not_mem_nil, or_false] at hc
  rcases hc with (h | h) | (h | h) <;> subst h <;>
    exact isUpperHexChar_hexChar _ (Nat.mod_lt _ (by omega))

/-- An activation record for device D, used in concrete inputs. -/
def actD : DeviceActivation :=
  { deviceId := "D", activationDate := 1, lastValidation := 1, deviceInfo := [] }

/-- A concrete active, unexpired license at full capacity (one slot,
device D holds it), used as input for the validate/activate claims. -/
def lFull : License :=
  { licenseKey := "BABYLON-0A1B-2C3D-4E5F"
    customerEmail := "a@b.com"
    customerName := "A"
    purchaseDate := 0
    expiryDate := 100
    isActive := true
    maxActivations := 1
    currentActivations := 1
    deviceActivations := [actD]
    metadata := { planType := "single", version := "1.0", notes := "" } }

/-- A concrete active, unexpired license with one free slot and no
activations, used as input for the concurrency claim. -/
def lOneSlot : License :=
  { licenseKey := "BABYLON-0A1B-2C3D-4E5F"
    customerEmail := "a@b.com"
    customerName := "A"
    purchaseDate := 0
    expiryDate := 100
    isActive := true
    maxActivations := 1
    currentActivations := 0
    deviceActivations := []
    metadata := { planType := "single", version := "1.0", notes := "" } }

/-! Claim theorems. -/

/-- C1: for every license whose stored counter matches its activation
sequence and whose sequence is within capacity (both hold for a freshly
created license), no sequence of validate/activate/deactivate requests
ever makes `deviceActivations` longer than `maxActivations`: activate
appends only when its capacity check passes, and no other operation
grows the sequence. -/
theorem claim1_capacity_never_exceeded (l : License) (ops : List Op)
    (h1 : counterInv l) (h2 : capInv l) :
    ((runOps l ops).deviceActivations.length : Int) ≤
      (runOps l ops).maxActivations :=
  (runOps_inv l ops h1 h2).2

/-- Request sequence used to instantiate C1 concretely: two devices fill
the two slots, a third is refused. -/
def opsSample : List Op :=
  [Op.activateOp "BABYLON-0A1B-2C3D-4E5F" "D1" none 5 true,
   Op.validateOp "BABYLON-0A1B-2C3D-4E5F" "D1" 6 true,
   Op.activateOp "BABYLON-0A1B-2C3D-4E5F" "D2" none 7 true,
   Op.activateOp "BABYLON-0A1B-2C3D-4E5F" "D3" none 8 true]

/-- Witness for C1 at a concrete fresh license and request sequence. -/
theorem claim1_capacity_never_exceeded_witness :
    ((runOps lNew opsSample).deviceActivations.length : Int) ≤
      (runOps lNew opsSample).maxActivations :=
  claim1_capacity_never_exceeded lNew opsSample (by decide) (by decide)

/-- C2: the activate handler is a caller-side read-check-then-write
sequence (findOne, JavaScript checks, push, save), not an atomic
store-level conditional append.  At a concrete license with one free
slot, two interleaved activate requests for distinct devices both pass
every check on their snapshot, and after both writes the stored
activation sequence is longer than `maxActivations`. -/
theorem claim2_raced_activation_exceeds_limit :
    activatePasses lOneSlot "BABYLON-0A1B-2C3D-4E5F" "D1" 10 ∧
    activatePasses lOneSlot "BABYLON-0A1B-2C3D-4E5F" "D2" 10 ∧
    ((racedActivatePair lOneSlot "D1" "D2" none none 10).deviceActivations.length : Int) >
      (racedActivatePair lOneSlot "D1" "D2" none none 10).maxActivations := by
  decide

/-- C3: activate is idempotent per (licenseKey, deviceId): on an active,
unexpired license whose activations already contain the device, a second
activate call succeeds with the already-activated result, leaves the
activation sequence length unchanged, and consumes no activation slot —
no capacity hypothesis is needed, so this holds even at capacity. -/
theorem claim3_activate_idempotent (l : License) (key d : String)
    (fp : Option JsonObj) (now : Int)
    (hk : l.licenseKey = key) (ha : l.isActive = true) (he : now ≤ l.expiryDate)
    (hd : ∃ a ∈ l.deviceActivations, a.deviceId = d) :
    (activate l key d fp now true).2 =
      .alreadyActivated l.expiryDate l.customerName ∧
    (activate l key d fp now true).1.deviceActivations.length =
      l.deviceActivations.length ∧
    (activate l key d fp now true).1.currentActivations =
      l.currentActivations := by
  rw [activate_found l d fp now hk ha he (findDevice_isSome hd)]
  exact ⟨rfl, touchFirst_length _ _ _, rfl⟩

/-- Witness for C3 at a concrete license already at full capacity whose
only slot is held by the requesting device. -/
theorem claim3_activate_idempotent_witness :
    (activate lFull "BABYLON-0A1B-2C3D-4E5F" "D" none 10 true).2 =
      .alreadyActivated lFull.expiryDate lFull.customerName ∧
    (activate lFull "BABYLON-0A1B-2C3D-4E5F" "D" none 10 true).1.deviceActivations.length =
      lFull.deviceActivations.length ∧
    (activate lFull "BABYLON-0A1B-2C3D-4E5F" "D" none 10 true).1.currentActivations =
      lFull.currentActivations :=
  claim3_activate_idempotent lFull "BABYLON-0A1B-2C3D-4E5F" "D" none 10 rfl rfl
    (by decide) ⟨actD, by decide, rfl⟩

/-- C4: the already-activated check runs before the capacity check: when
the device is present in the activation sequence the limit-reached
outcome is impossible (whatever the counter and capacity), and when the
license is moreover active and unexpired the call succeeds with the
already-activated result; so limit-reached can only hit devices absent
from the sequence. -/
theorem claim4_already_precedes_capacity (l : License) (key d : String)
    (fp : Option JsonObj) (now : Int) (s : Bool)
    (hd : ∃ a ∈ l.deviceActivations, a.deviceId = d) :
    isLimitReached (activate l key d fp now s).2 = false ∧
    (l.licenseKey = key → l.isActive = true → now ≤ l.expiryDate → s = true →
      (activate l key d fp now s).2 =
        .alreadyActivated l.expiryDate l.customerName) := by
  have hs := findDevice_isSome hd
  refine ⟨activate_limit_only_if_absent l key d fp now s hs, ?_⟩
  rintro hk ha he rfl
  rw [activate_found l d fp now hk ha he hs]

/-- Witness for C4 at a concrete license at full capacity. -/
theorem claim4_already_precedes_capacity_witness :
    isLimitReached (activate lFull "BABYLON-0A1B-2C3D-4E5F" "D" none 10 true).2 = false ∧
    (activate lFull "BABYLON-0A1B-2C3D-4E5F" "D" none 10 true).2 =
      .alreadyActivated lFull.expiryDate lFull.customerName := by
  have h := claim4_already_precedes_capacity lFull "BABYLON-0A1B-2C3D-4E5F" "D"
    none 10 true ⟨actD, by decide, rfl⟩
  exact ⟨h.1, h.2 rfl rfl (by decide) rfl⟩

/-- C5 counterexample: at a concrete active, unexpired license whose
device activation exists, a failure of the save that persists
`lastValidation` makes validate answer the 500 server error instead of
`valid: true`; the same call with a successful save answers
`valid: true`, so the save failure alone changed the outcome. -/
theorem claim5_cex :
    (validate lFull "BABYLON-0A1B-2C3D-4E5F" "D" 10 false).2 =
      ValidateResult.serverError ∧
    (validate lFull "BABYLON-0A1B-2C3D-4E5F" "D" 10 false).2 ≠
      ValidateResult.valid lFull.expiryDate lFull.customerName lFull.metadata.planType ∧
    (validate lFull "BABYLON-0A1B-2C3D-4E5F" "D" 10 true).2 =
      ValidateResult.valid lFull.expiryDate lFull.customerName lFull.metadata.planType := by
  decide

/-- C5 amended: the `lastValidation` update is not best-effort — validate
awaits the save before responding, so when the license is active,
unexpired and the device's activation record exists, a failed save is
caught and answered as a server error (valid: false) with the stored
license unchanged, and `valid: true` is returned exactly when the save
succeeds. -/
theorem claim5_touch_failure_is_fatal (l : License) (key d : String) (now : Int)
    (hk : l.licenseKey = key) (ha : l.isActive = true) (he : now ≤ l.expiryDate)
    (hd : ∃ a ∈ l.deviceActivations, a.deviceId = d) :
    validate l key d now false = (l, .serverError) ∧
    (validate l key d now true).2 =
      .valid l.expiryDate l.customerName l.metadata.planType := by
  have hs := findDevice_isSome hd
  refine ⟨validate_found_savefail l d now hk ha he hs, ?_⟩
  rw [validate_found l d now hk ha he hs]

/-- Witness for the amended C5 at a concrete license. -/
theorem claim5_touch_failure_is_fatal_witness :
    validate lFull "BABYLON-0A1B-2C3D-4E5F" "D" 10 false =
      (lFull, ValidateResult.serverError) ∧
    (validate lFull "BABYLON-0A1B-2C3D-4E5F" "D" 10 true).2 =
      ValidateResult.valid lFull.expiryDate lFull.customerName lFull.metadata.planType :=
  claim5_touch_failure_is_fatal lFull "BABYLON-0A1B-2C3D-4E5F" "D" 10 rfl rfl
    (by decide) ⟨actD, by decide, rfl⟩

/-- C6: a successful deactivate sets `isActive` to false and changes no
other field of the license, and afterwards — including after any further
request sequence — every validate answers not-found/inactive and every
activate answers invalid-key, regardless of expiry or activation
state. -/
theorem claim6_deactivate_frame_and_revocation (l : License) (key : String)
    (h : (deactivate l key).2 = .success) :
    (deactivate l key).1.isActive = false ∧
    (deactivate l key).1.licenseKey = l.licenseKey ∧
    (deactivate l key).1.customerEmail = l.customerEmail ∧
    (deactivate l key).1.customerName = l.customerName ∧
    (deactivate l key).1.purchaseDate = l.purchaseDate ∧
    (deactivate l key).1.expiryDate = l.expiryDate ∧
    (deactivate l key).1.maxActivations = l.maxActivations ∧
    (deactivate l key).1.currentActivations = l.currentActivations ∧
    (deactivate l key).1.deviceActivations = l.deviceActivations ∧
    (deactivate l key).1.metadata = l.metadata ∧
    (∀ ops k d now s,
        validate (runOps (deactivate l key).1 ops) k d now s =
          (runOps (deactivate l key).1 ops, .notFoundOrInactive)) ∧
    (∀ ops k d fp now s,
        activate (runOps (deactivate l key).1 ops) k d fp now s =
          (runOps (deactivate l key).1 ops, .invalidKey)) := by
  unfold deactivate at h ⊢
  split_ifs at h ⊢ with hkey
  · refine ⟨rfl, rfl, rfl, rfl, rfl, rfl, rfl, rfl, rfl, rfl, ?_, ?_⟩
    · intro ops k d now s
      exact validate_inactive _ k d now s (runOps_inactive _ ops rfl)
    · intro ops k d fp now s
      exact activate_inactive _ k d fp now s (runOps_inactive _ ops rfl)

/-- Witness for C6 at a concrete license: deactivation flips `isActive`
and an immediately following validate is refused. -/
theorem claim6_deactivate_frame_and_revocation_witness :
    (deactivate lFull "BABYLON-0A1B-2C3D-4E5F").1.isActive = false ∧
    validate (deactivate lFull "BABYLON-0A1B-2C3D-4E5F").1
        "BABYLON-0A1B-2C3D-4E5F" "D" 10 true =
      ((deactivate lFull "BABYLON-0A1B-2C3D-4E5F").1,
        ValidateResult.notFoundOrInactive) := by
  have h := claim6_deactivate_frame_and_revocation lFull
    "BABYLON-0A1B-2C3D-4E5F" (by decide)
  exact ⟨h.1, h.2.2.2.2.2.2.2.2.2.2.1 [] "BABYLON-0A1B-2C3D-4E5F" "D" 10 true⟩

/-- C7 counterexample: the request with email "a@b.com" and the
whitespace-only name " " passes the handler's own required-fields check
(neither field is the empty string), so it is not rejected by the
validation-error path; it fails only later, at the store's required
constraint on the trimmed empty name, as a 500 server error. -/
theorem claim7_cex :
    ¬ (("a@b.com" : String) = "" ∨ (" " : String) = "") ∧
    createLicense "a@b.com" " " "" none "" 0 100 "BABYLON-0A1B-2C3D-4E5F" =
      CreateResult.storeError ∧
    CreateResult.storeError ≠ CreateResult.missingFields := by
  refine ⟨by decide, by decide, by decide⟩

/-- C7 amended: the handler's validation error (400) fires exactly when
email or name is the empty string — whitespace-only values pass it; a
field that trims to empty still never yields a created license, because
the trimmed value then violates the store's required constraint (500);
and any created license carries the trimmed, non-empty fields. -/
theorem claim7_trim_validation (email name pt : String) (mai : Option Int)
    (notes : String) (now exp : Int) (key : String) :
    (createLicense email name pt mai notes now exp key = .missingFields ↔
      (email = "" ∨ name = "")) ∧
    ((jsTrim email = "" ∨ jsTrim name = "") →
      ∀ l, createLicense email name pt mai notes now exp key ≠ .created l) ∧
    (∀ l, createLicense email name pt mai notes now exp key = .created l →
      l.customerEmail = jsTrim email ∧ l.customerName = jsTrim name ∧
      jsTrim email ≠ "" ∧ jsTrim name ≠ "") := by
  by_cases h1 : email = "" ∨ name = ""
  · unfold createLicense
    rw [if_pos h1]
    exact ⟨⟨fun _ => h1, fun _ => rfl⟩,
      fun _ l hc => CreateResult.noConfusion hc,
      fun l hc => CreateResult.noConfusion hc⟩
  · by_cases h2 : jsTrim email = "" ∨ jsTrim name = ""
    · unfold createLicense
      rw [if_neg h1, if_pos h2]
      exact ⟨⟨fun hc => CreateResult.noConfusion hc, fun hh => absurd hh h1⟩,
        fun _ l hc => CreateResult.noConfusion hc,
        fun l hc => CreateResult.noConfusion hc⟩
    · unfold createLicense
      rw [if_neg h1, if_neg h2]
      push_neg at h2
      refine ⟨⟨fun hc => CreateResult.noConfusion hc, fun hh => absurd hh h1⟩,
        ?_, ?_⟩
      · rintro (hh | hh) l
        · exact absurd hh h2.1
        · exact absurd hh h2.2
      · intro l heq
        injection heq with heq'
        subst heq'
        exact ⟨rfl, rfl, h2.1, h2.2⟩

/-- Witness for the amended C7: an empty email is rejected by the
validation-error path, and a whitespace-only name never yields a created
license. -/
theorem claim7_trim_validation_witness :
    createLicense "" "Bob" "" none "" 0 100 "K" = CreateResult.missingFields ∧
    createLicense "a@b.com" "  " "" none "" 0 100 "K" ≠
      CreateResult.created lNew := by
  constructor
  · exact (claim7_trim_validation "" "Bob" "" none "" 0 100 "K").1.mpr (Or.inl rfl)
  · exact (claim7_trim_validation "a@b.com" "  " "" none "" 0 100 "K").2.1
      (Or.inr (by decide)) lNew

/-- C8: every key the generator produces from its six random bytes is the
`BABYLON` prefix followed by a dash and three dash-separated groups of
four uppercase hexadecimal characters, each group rendered from two
bytes as four hex digits. -/
theorem claim8_key_pattern (b0 b1 b2 b3 b4 b5 : Nat) :
    isKeyOfPattern "BABYLON" (generateLicenseKey b0 b1 b2 b3 b4 b5) :=
  ⟨segmentChars b0 b1, segmentChars b2 b3, segmentChars b4 b5, rfl, rfl, rfl,
   segmentChars_upperHex b0 b1, segmentChars_upperHex b2 b3,
   segmentChars_upperHex b4 b5, rfl⟩

/-- C9: record-usage never consults the License collection (its
embedding takes no license argument, so the conclusion holds for any
license population, in particular one in which no license matches the
key): a successful append answers success true and appends exactly the
one event, and a failed append is swallowed as a soft success false with
the event list unchanged. -/
theorem claim9_record_usage_decoupled (licenses : List License)
    (events : List UsageEvent) (key d act : String) (md : Option JsonObj)
    (now : Int) (_hmiss : ∀ lic ∈ licenses, lic.licenseKey ≠ key) :
    recordUsage events key d act md now true =
      (events ++ [{ licenseKey := key, deviceId := d, action := act,
                    metadata := md.getD [], timestamp := now }], true) ∧
    recordUsage events key d act md now false = (events, false) :=
  ⟨rfl, rfl⟩

/-- Witness for C9: recording against a key held by no license in the
population still succeeds and appends the event. -/
theorem claim9_record_usage_decoupled_witness :
    recordUsage [] "NOSUCH-KEY" "D" "launch" none 7 true =
      ([{ licenseKey := "NOSUCH-KEY", deviceId := "D", action := "launch",
          metadata := [], timestamp := 7 }], true) ∧
    recordUsage [] "NOSUCH-KEY" "D" "launch" none 7 false = ([], false) :=
  claim9_record_usage_decoupled [lFull] [] "NOSUCH-KEY" "D" "launch" none 7
    (by decide)

/-- C10: `currentActivations` always equals the activation sequence
length: creation starts both at zero/empty, every request preserves the
equality (activate changes the counter by exactly the number of records
it appends; validate and deactivate change neither; record-usage never
touches a license, see `recordUsage`), and under the equality the
handler's capacity comparison on the counter agrees with the comparison
on the sequence length. -/
theorem claim10_counter_equals_length :
    (∀ email name pt mai notes now exp key l,
        createLicense email name pt mai notes now exp key = .created l →
        l.currentActivations = 0 ∧ l.deviceActivations = []) ∧
    (∀ l op, counterInv l → counterInv (runOp l op)) ∧
    (∀ l key d fp now s,
        (activate l key d fp now s).1.currentActivations - l.currentActivations =
          ((activate l key d fp now s).1.deviceActivations.length : Int) -
            (l.deviceActivations.length : Int)) ∧
    (∀ l, counterInv l →
        (l.currentActivations ≥ l.maxActivations ↔
          ((l.deviceActivations.length : Int) ≥ l.maxActivations))) := by
  refine ⟨?_, ?_, ?_, ?_⟩
  · intro email name pt mai notes now exp key l h
    unfold createLicense at h
    by_cases h1 : email = "" ∨ name = ""
    · rw [if_pos h1] at h
      exact CreateResult.noConfusion h
    · rw [if_neg h1] at h
      by_cases h2 : jsTrim email = "" ∨ jsTrim name = ""
      · rw [if_pos h2] at h
        exact CreateResult.noConfusion h
      · rw [if_neg h2] at h
        injection h with h'
        subst h'
        exact ⟨rfl, rfl⟩
  · intro l op h
    exact (runOp_inv l op h).1
  · intro l key d fp now s
    rcases activate_state l key d fp now s with h | h | h <;> rw [h]
    · omega
    · show l.currentActivations - l.currentActivations =
        ((touchFirst l.deviceActivations d now).length : Int) -
          (l.deviceActivations.length : Int)
      rw [touchFirst_length]
      omega
    · rw [pushActivation_current, pushActivation_length]
      push_cast
      omega
  · intro l h
    unfold counterInv at h
    rw [h]

/-- Witness for C10: the created-license, preservation and
capacity-comparison parts at concrete inputs. -/
theorem claim10_counter_equals_length_witness :
    (lNew.currentActivations = 0 ∧ lNew.deviceActivations = []) ∧
    counterInv (runOp lNew (Op.activateOp "BABYLON-0A1B-2C3D-4E5F" "D1" none 5 true)) ∧
    (lNew.currentActivations ≥ lNew.maxActivations ↔
      ((lNew.deviceActivations.length : Int) ≥ lNew.maxActivations)) := by
  refine ⟨claim10_counter_equals_length.1 "a@b.com" "A" "single" (some 2) ""
      0 100 "BABYLON-0A1B-2C3D-4E5F" lNew (by decide),
    claim10_counter_equals_length.2.1 lNew
      (Op.activateOp "BABYLON-0A1B-2C3D-4E5F" "D1" none 5 true) (by decide),
    claim10_counter_equals_length.2.2.2 lNew (by decide)⟩

end BabylonLicense
